import Mathlib

/-
  Verification of the image-generation CLI
  (src/bundled-skills/nano-banana-pro/scripts/generate_image.py).

  The script is embedded shallowly: the pure decision logic of `main` and
  `save_image` is translated into Lean functions, while the effectful
  collaborators (file reads via PIL, the HTTPS POST, `Path.resolve`,
  `json.dumps`) are passed in as oracles or plain string parameters.
  Filesystem and network side effects are recorded in an explicit trace.
-/

namespace GenerateImage

/-! ## Request-side data model -/

/-- One entry of the outgoing `content` array: either
`{"type": "image_url", "image_url": {"url": url}}` or
`{"type": "text", "text": s}` (generate_image.py lines 134-137, 155). -/
inductive OutPart
  | imageUrl (url : String)
  | text (s : String)
  deriving DecidableEq

/-- The two ways building the request content can fail and call `sys.exit(1)`
(generate_image.py lines 126-128 and 140-142). -/
inductive BuildError
  | tooManyInputImages (n : Nat)
  | imageLoadError (path : String) (msg : String)
  deriving DecidableEq

/-- Result of the content-building phase of `main` (lines 121-155):
the assembled `content_parts`, the resolved `output_resolution`, and the
running `max_input_dim`. -/
structure BuildResult where
  contentParts : List OutPart
  outputResolution : String
  maxInputDim : Nat
  deriving DecidableEq

/-- Externally observable filesystem/network effects of one run, in order. -/
inductive Effect
  | mkdirParents (path : String)
  | readImage (path : String)
  | httpPost
  | writeFile (path : String)
  deriving DecidableEq

/-- Whether an effect writes to the filesystem. -/
def isWriteEffect : Effect → Bool
  | Effect.mkdirParents _ => true
  | Effect.writeFile _ => true
  | Effect.readImage _ => false
  | Effect.httpPost => false

/-- Outcome of loading the input images (the `for img_path in
args.input_images` loop, lines 131-142): effects performed, stdout lines
printed, and either the image parts plus maximal dimension or the first
load failure. -/
structure LoadsOut where
  effects : List Effect
  stdout : List String
  result : Except BuildError (List OutPart × Nat)

/-- The input-image loop of `main` (lines 130-142).  `load` is the oracle
standing for `image_to_base64_url` (file read + PIL decode + re-encode):
it returns the data URL and the (width, height) of the image, or an error
message.  The Python loop keeps a running maximum `max_input_dim =
max(max_input_dim, width, height)`; the recursion below computes the same
maximum of all width/height values.  On the first failing image the loop
exits (line 142), so later paths are neither read nor decoded. -/
def loadImagesTrace (load : String → Except String (String × Nat × Nat)) :
    List String → LoadsOut
  | [] => ⟨[], [], Except.ok ([], 0)⟩
  | p :: ps =>
    match load p with
    | Except.error e => ⟨[Effect.readImage p], [], Except.error (BuildError.imageLoadError p e)⟩
    | Except.ok (url, wd, ht) =>
      let rest := loadImagesTrace load ps
      ⟨Effect.readImage p :: rest.effects,
       ("Loaded input image: " ++ p) :: rest.stdout,
       match rest.result with
       | Except.error err => Except.error err
       | Except.ok (parts, m) =>
         Except.ok (OutPart.imageUrl url :: parts, max (max wd ht) m)⟩

/-- Outcome of the whole content-building phase. -/
structure BuildOut where
  effects : List Effect
  stdout : List String
  result : Except BuildError BuildResult

/-- Content building of `main` (lines 121-155): the `if args.input_images:`
block with the count check (line 126, `> 14`), the load loop, the
resolution auto-detection (lines 145-152, only when the caller-supplied
resolution equals the default `"1K"` and `max_input_dim > 0`), and the
final append of the text prompt (line 155). -/
def buildContentT (load : String → Except String (String × Nat × Nat))
    (inputImages : List String) (resolution prompt : String) : BuildOut :=
  if inputImages.isEmpty then
    ⟨[], [], Except.ok ⟨[OutPart.text prompt], resolution, 0⟩⟩
  else if 14 < inputImages.length then
    ⟨[], [], Except.error (BuildError.tooManyInputImages inputImages.length)⟩
  else
    let lo := loadImagesTrace load inputImages
    match lo.result with
    | Except.error e => ⟨lo.effects, lo.stdout, Except.error e⟩
    | Except.ok (parts, m) =>
      if resolution = "1K" ∧ 0 < m then
        let res2 := if 3000 ≤ m then "4K" else if 1500 ≤ m then "2K" else "1K"
        ⟨lo.effects,
         lo.stdout ++
           ["Auto-detected resolution: " ++ res2 ++
             " (from max input dimension " ++ toString m ++ ")"],
         Except.ok ⟨parts ++ [OutPart.text prompt], res2, m⟩⟩
      else
        ⟨lo.effects, lo.stdout, Except.ok ⟨parts ++ [OutPart.text prompt], resolution, m⟩⟩

/-- The result component of the content-building phase. -/
def buildContent (load : String → Except String (String × Nat × Nat))
    (inputImages : List String) (resolution prompt : String) :
    Except BuildError BuildResult :=
  (buildContentT load inputImages resolution prompt).result

/-- The JSON request body of lines 160-170: model id, a single user-role
message with the content array, the modality declaration, the
`image_config.image_size` field, and `stream: false`. -/
structure Payload where
  model : String
  messages : List (String × List OutPart)
  modalities : List String
  imageConfigImageSize : String
  stream : Bool
  deriving DecidableEq

/-- Build the request payload from a `BuildResult` (lines 160-170). -/
def buildPayload (model : String) (r : BuildResult) : Payload :=
  ⟨model, [("user", r.contentParts)], ["image", "text"], r.outputResolution, false⟩

/-! ## Response-side data model -/

/-- One entry of a structured `content` list in the response.  A dict part
is classified by its `"type"` field; `textPart` carries
`part.get("text", "")` and `imageUrlPart` carries
`part.get("image_url", {}).get("url", "")` (lines 216-220, 237-247). -/
inductive ContentPart
  | textPart (text : String)
  | imageUrlPart (url : String)
  | otherDict
  | nonDict
  deriving DecidableEq

/-- The message `content` field, `message.get("content", "")` (line 212):
a plain string (an absent field becomes `""`), a structured list, or any
other JSON value (neither `str` nor `list`). -/
inductive Content
  | str (s : String)
  | list (parts : List ContentPart)
  | other
  deriving DecidableEq

/-- One entry of the message-level `images` list (lines 223-233): a dict
carrying `img_part.get("image_url", {}).get("url", "")`, or a non-dict
entry (skipped by the loop). -/
inductive ImageEntry
  | dict (url : String)
  | nonDict
  deriving DecidableEq

/-- The first choice's message: `choices[0].get("message", {})` (line 209).
An absent message yields content `""` and an empty image list. -/
structure Message where
  content : Content
  images : List ImageEntry
  deriving DecidableEq

/-- The parsed response body.  `data.get("choices", [])` (line 203) maps an
absent `choices` field to the empty list. -/
structure ApiResponse where
  choices : List Message
  deriving DecidableEq

/-- Python's `url.startswith(pre)`: a prefix test on the character
sequences of the two strings. -/
def strStartsWith (s pre : String) : Bool :=
  pre.data.isPrefixOf s.data

/-- The `for img_part in images` loop (lines 224-233): skip non-dict
entries and entries whose URL does not start with `"data:"`; stop at the
first data URL. -/
def scanImages : List ImageEntry → Option String
  | [] => none
  | ImageEntry.nonDict :: rest => scanImages rest
  | ImageEntry.dict url :: rest =>
    if strStartsWith url "data:" then some url else scanImages rest

/-- The fallback loop over the structured content list (lines 236-247):
skip non-dict entries and entries not tagged `"image_url"` or without a
`"data:"` URL; stop at the first match. -/
def scanContentParts : List ContentPart → Option String
  | [] => none
  | ContentPart.imageUrlPart url :: rest =>
    if strStartsWith url "data:" then some url else scanContentParts rest
  | _ :: rest => scanContentParts rest

/-- Image location (lines 222-247): the message-level `images` list is
scanned first; only if it yields nothing and `content` is a list is the
content list scanned. -/
def locateImage (msg : Message) : Option String :=
  match scanImages msg.images with
  | some u => some u
  | none =>
    match msg.content with
    | Content.list parts => scanContentParts parts
    | _ => none

/-- The URL of an image-list entry when it has the `data:` scheme. -/
def entryDataUrl : ImageEntry → Option String
  | ImageEntry.dict url => if strStartsWith url "data:" then some url else none
  | ImageEntry.nonDict => none

/-- The URL of a content part when it is an image reference with the
`data:` scheme. -/
def partDataUrl : ContentPart → Option String
  | ContentPart.imageUrlPart url => if strStartsWith url "data:" then some url else none
  | _ => none

/-- Modelled from the spec: the declarative image-location rule — take the
first entry of the message-level image list whose URL has the `data:`
scheme; only if none exists, scan the structured content list for the
first image reference with a `data:` URL. -/
def locateImageSpec (msg : Message) : Option String :=
  match msg.images.findSome? entryDataUrl with
  | some u => some u
  | none =>
    match msg.content with
    | Content.list parts => parts.findSome? partDataUrl
    | _ => none

/-- The text printed for the message content (lines 212-220): a non-empty
string content prints one `Model response:` line; a list content prints
one line per non-empty text part; anything else prints nothing. -/
def contentTextLines : Content → List String
  | Content.str s => if s = "" then [] else ["Model response: " ++ s]
  | Content.list parts =>
    parts.filterMap fun p =>
      match p with
      | ContentPart.textPart t => if t = "" then none else some ("Model response: " ++ t)
      | _ => none
  | Content.other => []

/-- Observable output of a run: stdout print calls, stderr print calls,
files written by `save_image`, and the process exit code. -/
structure RunOutput where
  stdout : List String
  stderr : List String
  savedFiles : List String
  exitCode : Nat
  deriving DecidableEq

/-- Response interpretation of `main` (lines 202-257).  `outputPath` is
`args.filename` (the path `save_image` writes to), `fullPath` stands for
`output_path.resolve()` and `rawJson` for `json.dumps(data, indent=2)`.
An empty choice list is fatal (lines 204-207); otherwise the text content
is printed, the image is located, and either the image is saved and the
two result lines are printed (lines 249-253, the first print carrying a
leading newline) or the run fails with the no-image error (lines 254-257).
The decode-and-save of the located payload (lines 229-231) is modelled as
succeeding — an undecodable payload would raise an uncaught exception in
the script and crash the run — so the concrete responses this development
evaluates on carry a genuinely decodable PNG payload. -/
def responsePhase (resp : ApiResponse) (outputPath fullPath rawJson : String) : RunOutput :=
  match resp.choices with
  | [] =>
    ⟨[], ["Error: Empty response from API.", "Response: " ++ rawJson], [], 1⟩
  | msg :: _ =>
    let textOut := contentTextLines msg.content
    match locateImage msg with
    | some _ =>
      ⟨textOut ++ ["\nImage saved: " ++ fullPath, "MEDIA: " ++ fullPath],
       [], [outputPath], 0⟩
    | none =>
      ⟨textOut,
       ["Error: No image was generated in the response.", "Full response: " ++ rawJson],
       [], 1⟩

/-- Transport/API failures of the HTTPS POST (lines 194-199). -/
inductive NetError
  | httpStatus (code : Nat) (body : String)
  | transport (msg : String)
  deriving DecidableEq

/-- The whole of `main` after argument parsing (lines 104-257).  `apiKey`
is the result of `get_api_key`; `load` is the `image_to_base64_url`
oracle; `net` is the HTTPS POST oracle (`httpx.post` + `raise_for_status`
+ `.json()`); `fullPath` stands for `output_path.resolve()` and `rawJson`
for `json.dumps(data, indent=2)`.  Returns the ordered effect trace and
the observable output.  The credential check (lines 106-111) precedes the
`mkdir(parents=True)` on the output path (line 118), which precedes the
content-building phase, the POST and the save. -/
def mainRun (apiKey : Option String) (prompt filename : String) (inputImages : List String)
    (resolution model : String) (load : String → Except String (String × Nat × Nat))
    (net : Payload → Except NetError ApiResponse) (fullPath rawJson : String) :
    List Effect × RunOutput :=
  match apiKey with
  | none =>
    ([], ⟨[], ["Error: No API key provided.",
               "Please either:",
               "  1. Provide --api-key argument",
               "  2. Set OPENROUTER_API_KEY environment variable"], [], 1⟩)
  | some _ =>
    let b := buildContentT load inputImages resolution prompt
    let trace := Effect.mkdirParents filename :: b.effects
    match b.result with
    | Except.error (BuildError.tooManyInputImages n) =>
      (trace, ⟨b.stdout,
        ["Error: Too many input images (" ++ toString n ++ "). Maximum is 14."], [], 1⟩)
    | Except.error (BuildError.imageLoadError p e) =>
      (trace, ⟨b.stdout,
        ["Error loading input image \x27" ++ p ++ "\x27: " ++ e], [], 1⟩)
    | Except.ok r =>
      let payload := buildPayload model r
      let progress :=
        if inputImages.isEmpty then
          "Generating image at " ++ r.outputResolution ++ " via OpenRouter (" ++ model ++ ")..."
        else
          "Processing " ++ toString inputImages.length ++ " image" ++
            (if 1 < inputImages.length then "s" else "") ++ " at " ++
            r.outputResolution ++ " via OpenRouter (" ++ model ++ ")..."
      match net payload with
      | Except.error (NetError.httpStatus code body) =>
        (trace ++ [Effect.httpPost],
         ⟨b.stdout ++ [progress], ["API error " ++ toString code ++ ": " ++ body], [], 1⟩)
      | Except.error (NetError.transport msg) =>
        (trace ++ [Effect.httpPost],
         ⟨b.stdout ++ [progress], ["Request error: " ++ msg], [], 1⟩)
      | Except.ok resp =>
        let out := responsePhase resp filename fullPath rawJson
        (trace ++ [Effect.httpPost] ++ out.savedFiles.map Effect.writeFile,
         ⟨b.stdout ++ [progress] ++ out.stdout, out.stderr, out.savedFiles, out.exitCode⟩)

/-! ## save_image -/

/-- The three save branches of `save_image` (lines 54-62). -/
inductive SaveMethod
  | compositeOnWhite
  | direct
  | convertRGB
  deriving DecidableEq

/-- What `save_image` writes: which branch was taken, the color mode of
the written raster, and the file format. -/
structure SavedImage where
  method : SaveMethod
  mode : String
  format : String
  deriving DecidableEq

/-- `save_image` (lines 50-62) as a function of the decoded image's mode:
`'RGBA'` is pasted onto a white `'RGB'` canvas using its alpha band,
`'RGB'` is saved directly, and every other mode goes through
`image.convert('RGB')`; the file is always written with format `'PNG'`. -/
def save_image (mode : String) : SavedImage :=
  if mode = "RGBA" then ⟨SaveMethod.compositeOnWhite, "RGB", "PNG"⟩
  else if mode = "RGB" then ⟨SaveMethod.direct, "RGB", "PNG"⟩
  else ⟨SaveMethod.convertRGB, "RGB", "PNG"⟩

/-- Modelled from the spec: "its color model includes an alpha channel" —
the Pillow raster modes that carry an alpha band. -/
def modeHasAlpha (m : String) : Bool :=
  m = "RGBA" || m = "RGBa" || m = "LA" || m = "La" || m = "PA"

/-! ## Derived notions used by the claims -/

/-- A load oracle with no failures, returning the data URL and dimensions
given by `u`, `w`, `h`. -/
def totalLoad (u : String → String) (w h : String → Nat) :
    String → Except String (String × Nat × Nat) :=
  fun p => Except.ok (u p, w p, h p)

/-- The maximum of all widths and heights of a list of dimension pairs. -/
def maxDimOf (dims : List (Nat × Nat)) : Nat :=
  dims.foldr (fun wh acc => max (max wh.1 wh.2) acc) 0

/-- Modelled from the spec: the resolution-inference thresholds —
maximum input dimension at least 3000 gives "4K", at least 1500 gives
"2K", otherwise "1K". -/
def inferredResolution (m : Nat) : String :=
  if 3000 ≤ m then "4K" else if 1500 ≤ m then "2K" else "1K"

/-- The resolved resolution of a build outcome, when it succeeded. -/
def resolvedResolutionOf (x : Except BuildError BuildResult) : Option String :=
  x.toOption.map BuildResult.outputResolution

/-- A concrete response whose first choice has string content AND an image
in the message-level image list.  The payload is a complete, decodable
1×1 RGBA PNG (valid signature, IHDR, IDAT and IEND with correct CRCs),
so decoding and saving it succeeds in the script: `save_image` takes the
RGBA branch, writes the file, and the run exits 0. -/
def c1respEx : ApiResponse :=
  ⟨[⟨Content.str "Here is your image.",
     [ImageEntry.dict ("data:image/png;base64," ++
       "iVBORw0KGgoAAAANSUhEUgAAAAEAAAABCAYAAAAfFcSJAAAADUlEQVR42mNkYPhfDwAChwGA60e6kgAAAABJRU5ErkJggg==")]⟩]⟩

/-! ## Helper lemmas -/

/-- With a failure-free load oracle, the load loop reads every path in
order, prints one line per image, builds one image part per image and
computes the maximum of all dimensions. -/
theorem loadImagesTrace_totalLoad (u : String → String) (w h : String → Nat)
    (paths : List String) :
    loadImagesTrace (totalLoad u w h) paths =
      ⟨paths.map Effect.readImage,
       paths.map (fun p => "Loaded input image: " ++ p),
       Except.ok (paths.map (fun p => OutPart.imageUrl (u p)),
                  maxDimOf (paths.map (fun p => (w p, h p))))⟩ := by
  induction paths with
  | nil => rfl
  | cons p ps ih => simp [loadImagesTrace, totalLoad, ih, maxDimOf]

/-- Characterization of the content-building phase under a failure-free
load oracle and an admissible image count. -/
theorem buildContent_totalLoad (u : String → String) (w h : String → Nat)
    (paths : List String) (hlen : paths.length ≤ 14) (res prompt : String) :
    buildContent (totalLoad u w h) paths res prompt =
      Except.ok ⟨(paths.map fun p => OutPart.imageUrl (u p)) ++ [OutPart.text prompt],
                 (if res = "1K" ∧ 0 < maxDimOf (paths.map fun p => (w p, h p))
                  then inferredResolution (maxDimOf (paths.map fun p => (w p, h p)))
                  else res),
                 maxDimOf (paths.map fun p => (w p, h p))⟩ := by
  unfold buildContent buildContentT
  by_cases hemp : paths.isEmpty
  · obtain rfl : paths = [] := List.isEmpty_iff.mp hemp
    simp [maxDimOf]
  · have hlen2 : ¬ 14 < paths.length := by omega
    rw [if_neg (by simpa using hemp), if_neg hlen2]
    simp only [loadImagesTrace_totalLoad]
    by_cases hc : res = "1K" ∧ 0 < maxDimOf (paths.map fun p => (w p, h p))
    · simp [hc, inferredResolution]
    · simp [hc]

/-- When the input-image count exceeds 14, content building fails with the
count error before any effect, whatever the load oracle does. -/
theorem buildContentT_tooMany (load : String → Except String (String × Nat × Nat))
    (paths : List String) (res prompt : String) (hlen : 14 < paths.length) :
    buildContentT load paths res prompt =
      ⟨[], [], Except.error (BuildError.tooManyInputImages paths.length)⟩ := by
  have hne : ¬ paths.isEmpty = true := by
    cases paths with
    | nil => simp at hlen
    | cons a t => simp
  unfold buildContentT
  rw [if_neg hne, if_pos hlen]

/-- The load loop performs no write effects. -/
theorem loadImagesTrace_no_writes (load : String → Except String (String × Nat × Nat))
    (paths : List String) :
    (loadImagesTrace load paths).effects.filter isWriteEffect = [] := by
  induction paths with
  | nil => rfl
  | cons p ps ih =>
    cases hl : load p with
    | error e => simp [loadImagesTrace, hl, isWriteEffect]
    | ok v =>
      obtain ⟨url, wd, ht⟩ := v
      simp [loadImagesTrace, hl, isWriteEffect, ih]

/-- Content building performs no write effects. -/
theorem buildContentT_no_writes (load : String → Except String (String × Nat × Nat))
    (paths : List String) (res prompt : String) :
    (buildContentT load paths res prompt).effects.filter isWriteEffect = [] := by
  unfold buildContentT
  by_cases hemp : paths.isEmpty
  · simp [hemp]
  · rw [if_neg (by simpa using hemp)]
    by_cases hlen : 14 < paths.length
    · rw [if_pos hlen]
      rfl
    · rw [if_neg hlen]
      cases hr : (loadImagesTrace load paths).result with
      | error e => simpa [hr] using loadImagesTrace_no_writes load paths
      | ok v =>
        obtain ⟨parts, m⟩ := v
        by_cases hc : res = "1K" ∧ 0 < m
        · simpa [hr, hc] using loadImagesTrace_no_writes load paths
        · simpa [hr, hc] using loadImagesTrace_no_writes load paths

/-- Write-effect filter leaves write-file effects alone. -/
theorem filter_writeFile_map (s : List String) :
    (s.map Effect.writeFile).filter isWriteEffect = s.map Effect.writeFile := by
  induction s with
  | nil => rfl
  | cons a t ih => simp [isWriteEffect, ih]

/-- Response interpretation writes exactly the output path on exit 0 and
nothing otherwise. -/
theorem responsePhase_saved (resp : ApiResponse) (outputPath fullPath rawJson : String) :
    ((responsePhase resp outputPath fullPath rawJson).exitCode = 0 →
      (responsePhase resp outputPath fullPath rawJson).savedFiles = [outputPath]) ∧
    ((responsePhase resp outputPath fullPath rawJson).exitCode ≠ 0 →
      (responsePhase resp outputPath fullPath rawJson).savedFiles = []) := by
  unfold responsePhase
  cases resp.choices with
  | nil => simp
  | cons msg rest =>
    cases hl : locateImage msg <;> simp [hl]

/-- The imperative image-list scan equals the declarative first data-URL
search. -/
theorem scanImages_eq_findSome (l : List ImageEntry) :
    scanImages l = l.findSome? entryDataUrl := by
  induction l with
  | nil => rfl
  | cons e rest ih =>
    cases e with
    | nonDict => simpa [scanImages, entryDataUrl, List.findSome?_cons] using ih
    | dict url =>
      by_cases hd : strStartsWith url "data:" <;>
        simp [scanImages, entryDataUrl, hd, List.findSome?_cons, ih]

/-- The imperative content-list scan equals the declarative first
image-reference data-URL search. -/
theorem scanContentParts_eq_findSome (l : List ContentPart) :
    scanContentParts l = l.findSome? partDataUrl := by
  induction l with
  | nil => rfl
  | cons e rest ih =>
    cases e with
    | textPart t => simpa [scanContentParts, partDataUrl, List.findSome?_cons] using ih
    | otherDict => simpa [scanContentParts, partDataUrl, List.findSome?_cons] using ih
    | nonDict => simpa [scanContentParts, partDataUrl, List.findSome?_cons] using ih
    | imageUrlPart url =>
      by_cases hd : strStartsWith url "data:" <;>
        simp [scanContentParts, partDataUrl, hd, List.findSome?_cons, ih]

/-! ## Claims -/

/-- C2: if the caller supplied a resolution other than the default "1K",
that value is used verbatim even when input images are present; otherwise,
with at least one input image, the resolved resolution follows the
max-dimension thresholds (≥3000 → "4K", ≥1500 → "2K", else "1K"); with no
input images the caller's value is used unmodified. -/
theorem resolution_resolution_rule (u : String → String) (w h : String → Nat)
    (paths : List String) (res prompt : String) (hlen : paths.length ≤ 14) :
    (res ≠ "1K" →
      resolvedResolutionOf (buildContent (totalLoad u w h) paths res prompt) = some res) ∧
    (paths = [] →
      resolvedResolutionOf (buildContent (totalLoad u w h) paths res prompt) = some res) ∧
    (paths ≠ [] → res = "1K" →
      resolvedResolutionOf (buildContent (totalLoad u w h) paths res prompt) =
        some (inferredResolution (maxDimOf (paths.map fun p => (w p, h p))))) := by
  have hb := buildContent_totalLoad u w h paths hlen res prompt
  refine ⟨?_, ?_, ?_⟩
  · intro hres
    rw [hb]
    simp [resolvedResolutionOf, Except.toOption, hres]
  · rintro rfl
    rw [hb]
    simp [resolvedResolutionOf, Except.toOption, maxDimOf]
  · intro _ hres
    subst hres
    rw [hb]
    by_cases hm : 0 < maxDimOf (paths.map fun p => (w p, h p))
    · simp [resolvedResolutionOf, Except.toOption, hm]
    · have h0 : maxDimOf (paths.map fun p => (w p, h p)) = 0 := by omega
      simp [resolvedResolutionOf, Except.toOption, h0, inferredResolution]

/-- C2 witness: one 2000×800 input image with the default "1K" resolves
to "2K". -/
theorem resolution_resolution_rule_witness :
    resolvedResolutionOf
        (buildContent (totalLoad (fun _ => "u") (fun _ => 2000) (fun _ => 800))
          ["a"] "1K" "cat") = some "2K" := by
  have hr := (resolution_resolution_rule (fun _ => "u") (fun _ => 2000) (fun _ => 800)
    ["a"] "1K" "cat" (by decide)).2.2 (by decide) rfl
  rw [hr]
  rfl

/-- C4: for any admissible input-image count the request builder succeeds;
above 14 it fails with the too-many-images error with an empty effect
trace and no output, for every load oracle — the failure precedes any
file read or decode. -/
theorem input_image_count_limit (u : String → String) (w h : String → Nat)
    (load : String → Except String (String × Nat × Nat))
    (paths : List String) (res prompt : String) :
    (paths.length ≤ 14 →
      ∃ r, buildContent (totalLoad u w h) paths res prompt = Except.ok r) ∧
    (14 < paths.length →
      buildContentT load paths res prompt =
        ⟨[], [], Except.error (BuildError.tooManyInputImages paths.length)⟩) := by
  constructor
  · intro hlen
    exact ⟨_, buildContent_totalLoad u w h paths hlen res prompt⟩
  · intro hlen
    exact buildContentT_tooMany load paths res prompt hlen

/-- C4 witness: one readable image builds; fifteen paths fail with the
count error and no effects, without consulting the load oracle. -/
theorem input_image_count_limit_witness :
    (∃ r, buildContent (totalLoad (fun _ => "u") (fun _ => 10) (fun _ => 10))
        ["a"] "1K" "x" = Except.ok r) ∧
    buildContentT (fun _ => Except.error "unreadable")
        ["1", "2", "3", "4", "5", "6", "7", "8", "9", "10", "11", "12", "13", "14", "15"]
        "1K" "x" =
      ⟨[], [], Except.error (BuildError.tooManyInputImages 15)⟩ := by
  refine ⟨?_, ?_⟩
  · exact (input_image_count_limit (fun _ => "u") (fun _ => 10) (fun _ => 10)
      (fun _ => Except.error "unreadable") ["a"] "1K" "x").1 (by decide)
  · exact (input_image_count_limit (fun _ => "u") (fun _ => 10) (fun _ => 10)
      (fun _ => Except.error "unreadable")
      ["1", "2", "3", "4", "5", "6", "7", "8", "9", "10", "11", "12", "13", "14", "15"]
      "1K" "x").2 (by decide)

/-- C7: the single user-role message's content array holds one image part
per input image, in input order, followed by exactly one text part holding
the literal prompt; the resolution is carried only in the distinct
image-size configuration field, never injected into any text part. -/
theorem request_message_construction (u : String → String) (w h : String → Nat)
    (paths : List String) (res prompt model : String) (hlen : paths.length ≤ 14) :
    ∃ sz,
      (buildContent (totalLoad u w h) paths res prompt).map (buildPayload model) =
        Except.ok ⟨model,
          [("user", (paths.map fun p => OutPart.imageUrl (u p)) ++ [OutPart.text prompt])],
          ["image", "text"], sz, false⟩ ∧
      (∀ s, OutPart.text s ∈
          (paths.map fun p => OutPart.imageUrl (u p)) ++ [OutPart.text prompt] →
        s = prompt) := by
  refine ⟨if res = "1K" ∧ 0 < maxDimOf (paths.map fun p => (w p, h p))
          then inferredResolution (maxDimOf (paths.map fun p => (w p, h p)))
          else res, ?_, ?_⟩
  · rw [buildContent_totalLoad u w h paths hlen res prompt]
    rfl
  · intro s hs
    rcases List.mem_append.mp hs with hmem | hmem
    · obtain ⟨p, _, hp⟩ := List.mem_map.mp hmem
      simp at hp
    · simpa using hmem

/-- C7 witness: one input image and prompt "hello" produce the image part
followed by the literal text part. -/
theorem request_message_construction_witness :
    ∃ sz,
      (buildContent (totalLoad (fun _ => "du") (fun _ => 100) (fun _ => 50))
          ["a"] "1K" "hello").map (buildPayload "m1") =
        Except.ok ⟨"m1",
          [("user", (["a"].map fun p => OutPart.imageUrl ((fun _ => "du") p)) ++
            [OutPart.text "hello"])],
          ["image", "text"], sz, false⟩ ∧
      (∀ s, OutPart.text s ∈
          (["a"].map fun p => OutPart.imageUrl ((fun _ => "du") p)) ++
            [OutPart.text "hello"] →
        s = "hello") :=
  request_message_construction (fun _ => "du") (fun _ => 100) (fun _ => 50)
    ["a"] "1K" "hello" "m1" (by decide)

/-- C9: the inference trigger compares the supplied resolution against the
literal default "1K", so an explicitly passed "1K" is indistinguishable
from the default: with at least one input image of maximum dimension at
least 1500, the resolved resolution is "2K" or "4K", never the caller's
explicit "1K". -/
theorem explicit_default_resolution_overridden (u : String → String) (w h : String → Nat)
    (paths : List String) (prompt : String)
    (_hne : paths ≠ []) (hlen : paths.length ≤ 14)
    (hM : 1500 ≤ maxDimOf (paths.map fun p => (w p, h p))) :
    resolvedResolutionOf (buildContent (totalLoad u w h) paths "1K" prompt) ≠ some "1K" ∧
    (resolvedResolutionOf (buildContent (totalLoad u w h) paths "1K" prompt) = some "2K" ∨
     resolvedResolutionOf (buildContent (totalLoad u w h) paths "1K" prompt) = some "4K") := by
  have hb := buildContent_totalLoad u w h paths hlen "1K" prompt
  have h0 : 0 < maxDimOf (paths.map fun p => (w p, h p)) := by omega
  rw [hb]
  by_cases h3 : 3000 ≤ maxDimOf (paths.map fun p => (w p, h p))
  · simp [resolvedResolutionOf, Except.toOption, h0, inferredResolution, h3]
  · simp [resolvedResolutionOf, Except.toOption, h0, inferredResolution, h3, hM]

/-- C9 witness: an explicit "1K" with a 1600×10 input image resolves to
"2K", not "1K". -/
theorem explicit_default_resolution_overridden_witness :
    resolvedResolutionOf
        (buildContent (totalLoad (fun _ => "u") (fun _ => 1600) (fun _ => 10))
          ["a"] "1K" "x") ≠ some "1K" ∧
    (resolvedResolutionOf
        (buildContent (totalLoad (fun _ => "u") (fun _ => 1600) (fun _ => 10))
          ["a"] "1K" "x") = some "2K" ∨
     resolvedResolutionOf
        (buildContent (totalLoad (fun _ => "u") (fun _ => 1600) (fun _ => 10))
          ["a"] "1K" "x") = some "4K") :=
  explicit_default_resolution_overridden (fun _ => "u") (fun _ => 1600) (fun _ => 10)
    ["a"] "x" (by decide) (by decide) (by decide)

/-- C1 counterexample: a response whose first choice's content is the
non-empty plain string "Here is your image." but whose message-level
image list carries a data URL with a decodable PNG payload (a valid
1×1 RGBA PNG) is saved and exits 0 — the claim says every
string-content response must end in the no-image error regardless of the
other message fields. -/
theorem string_content_counterexample :
    c1respEx.choices.head? =
      some ⟨Content.str "Here is your image.",
            [ImageEntry.dict ("data:image/png;base64," ++
              "iVBORw0KGgoAAAANSUhEUgAAAAEAAAABCAYAAAAfFcSJAAAADUlEQVR42mNkYPhfDwAChwGA60e6kgAAAABJRU5ErkJggg==")]⟩ ∧
    "Here is your image." ≠ "" ∧
    (responsePhase c1respEx "out.png" "/abs/out.png" "RAW").exitCode = 0 ∧
    (responsePhase c1respEx "out.png" "/abs/out.png" "RAW").savedFiles = ["out.png"] := by
  refine ⟨rfl, by decide, by decide, by decide⟩

/-- C1 (amended): for a response whose first choice's message content is a
plain non-empty string, the text is printed as diagnostic output and the
run terminates with the no-image error and exit code 1 with no output file
written, provided the message-level image list yields no data-URL entry;
the structured-content fallback is never consulted for string content.
(A data-URL entry in the message-level image list is still selected for
decoding and saving, string content notwithstanding; with a decodable
payload the run succeeds.) -/
theorem string_content_no_message_image (resp : ApiResponse) (out full raw : String)
    (msg : Message) (rest : List Message) (s : String)
    (hc : resp.choices = msg :: rest) (hs : msg.content = Content.str s) (hne : s ≠ "")
    (hi : scanImages msg.images = none) :
    responsePhase resp out full raw =
      ⟨["Model response: " ++ s],
       ["Error: No image was generated in the response.", "Full response: " ++ raw],
       [], 1⟩ := by
  have hloc : locateImage msg = none := by
    unfold locateImage
    rw [hi, hs]
  unfold responsePhase
  rw [hc]
  simp only [hloc, contentTextLines, hs, if_neg hne]

/-- C1 witness: string content with a non-data image entry ends in the
no-image error with exit code 1 and no file written. -/
theorem string_content_no_message_image_witness :
    responsePhase ⟨[⟨Content.str "I cannot do that.", [ImageEntry.dict "https://x"]⟩]⟩
        "o.png" "/o.png" "RAW" =
      ⟨["Model response: " ++ "I cannot do that."],
       ["Error: No image was generated in the response.", "Full response: " ++ "RAW"],
       [], 1⟩ :=
  string_content_no_message_image _ "o.png" "/o.png" "RAW" _ [] "I cannot do that."
    rfl rfl (by decide) (by decide)

/-- C3 counterexample: the Pillow mode "LA" (grayscale with alpha) has an
alpha channel, yet `save_image` does not composite it onto white — it
takes the generic convert branch. -/
theorem alpha_mode_counterexample :
    modeHasAlpha "LA" = true ∧
    (save_image "LA").method ≠ SaveMethod.compositeOnWhite ∧
    (save_image "LA").method = SaveMethod.convertRGB := by
  refine ⟨by decide, by decide, by decide⟩

/-- C3 (amended): only images whose mode is exactly "RGBA" are composited
onto an opaque white background; "RGB" images are saved directly; every
other mode — including other alpha-bearing modes such as "LA" — is
converted to RGB by the library's generic conversion; the written file is
always RGB and always PNG. -/
theorem save_image_normalization (m : String) :
    (save_image m).format = "PNG" ∧ (save_image m).mode = "RGB" ∧
    (m = "RGBA" → (save_image m).method = SaveMethod.compositeOnWhite) ∧
    (m = "RGB" → (save_image m).method = SaveMethod.direct) ∧
    (m ≠ "RGBA" → m ≠ "RGB" → (save_image m).method = SaveMethod.convertRGB) := by
  unfold save_image
  by_cases h1 : m = "RGBA"
  · subst h1
    refine ⟨rfl, rfl, fun _ => rfl, fun hx => absurd hx (by decide), fun hx _ => absurd rfl hx⟩
  · rw [if_neg h1]
    by_cases h2 : m = "RGB"
    · subst h2
      refine ⟨rfl, rfl, fun hx => absurd hx (by decide), fun _ => rfl,
        fun _ hx => absurd rfl hx⟩
    · rw [if_neg h2]
      exact ⟨rfl, rfl, fun hx => absurd hx h1, fun hx => absurd hx h2, fun _ _ => rfl⟩

/-- C3 witness: the three branches at "RGBA", "RGB" and "P". -/
theorem save_image_normalization_witness :
    (save_image "RGBA").method = SaveMethod.compositeOnWhite ∧
    (save_image "RGB").method = SaveMethod.direct ∧
    (save_image "P").method = SaveMethod.convertRGB :=
  ⟨(save_image_normalization "RGBA").2.2.1 rfl,
   (save_image_normalization "RGB").2.2.2.1 rfl,
   (save_image_normalization "P").2.2.2.2 (by decide) (by decide)⟩

/-- C5: image location takes the first message-level image-list entry
whose URL has the `data:` scheme; only when no such entry exists does it
fall back to the first image reference with a `data:` URL in the
structured content list; non-`data:` entries are skipped in both rules. -/
theorem image_location_order (msg : Message) :
    locateImage msg = locateImageSpec msg := by
  unfold locateImage locateImageSpec
  rw [scanImages_eq_findSome]
  cases msg.images.findSome? entryDataUrl with
  | some u => rfl
  | none =>
    cases msg.content with
    | str s => rfl
    | other => rfl
    | list parts => simpa using scanContentParts_eq_findSome parts

/-- C6: an empty (or absent, parsed as empty) choices list terminates with
the empty-response error and exit code 1, dumping the raw response JSON to
standard error, with no output file written. -/
theorem empty_choices_error (resp : ApiResponse) (out full raw : String)
    (h : resp.choices = []) :
    responsePhase resp out full raw =
      ⟨[], ["Error: Empty response from API.", "Response: " ++ raw], [], 1⟩ := by
  unfold responsePhase
  rw [h]

/-- C6 witness: the empty-choices response. -/
theorem empty_choices_error_witness :
    responsePhase ⟨[]⟩ "o.png" "/o.png" "RAWJSON" =
      ⟨[], ["Error: Empty response from API.", "Response: " ++ "RAWJSON"], [], 1⟩ :=
  empty_choices_error ⟨[]⟩ "o.png" "/o.png" "RAWJSON" rfl

/-- C8: on every successful run the stdout print calls end with exactly the
two result records — one containing the absolute resolved output path
(`Image saved: <path>`, preceded in the same print call by a newline) and
one of the exact form `MEDIA: <path>` — with the same absolute path in
both, and exactly the caller's output path is written. -/
theorem success_output_lines (resp : ApiResponse) (out full raw : String)
    (h : (responsePhase resp out full raw).exitCode = 0) :
    ∃ pre,
      (responsePhase resp out full raw).stdout =
        pre ++ ["\nImage saved: " ++ full, "MEDIA: " ++ full] ∧
      (responsePhase resp out full raw).savedFiles = [out] := by
  obtain ⟨choices⟩ := resp
  cases choices with
  | nil => simp [responsePhase] at h
  | cons msg rest =>
    cases hl : locateImage msg with
    | none => simp [responsePhase, hl] at h
    | some u =>
      refine ⟨contentTextLines msg.content, ?_, ?_⟩ <;> simp [responsePhase, hl]

/-- C8 witness: a response carrying one message-level data-URL image. -/
theorem success_output_lines_witness :
    ∃ pre,
      (responsePhase ⟨[⟨Content.str "", [ImageEntry.dict "data:image/png;base64,AA"]⟩]⟩
          "o.png" "/abs/o.png" "R").stdout =
        pre ++ ["\nImage saved: " ++ "/abs/o.png", "MEDIA: " ++ "/abs/o.png"] ∧
      (responsePhase ⟨[⟨Content.str "", [ImageEntry.dict "data:image/png;base64,AA"]⟩]⟩
          "o.png" "/abs/o.png" "R").savedFiles = ["o.png"] :=
  success_output_lines ⟨[⟨Content.str "", [ImageEntry.dict "data:image/png;base64,AA"]⟩]⟩
    "o.png" "/abs/o.png" "R" (by decide)

/-- C10: with a credential the very first effect of the run is the
creation of the output file's parent directories — before the image-count
limit is enforced (above 14 images the trace is exactly the mkdir),
before any input image is read and before the network call — while
without a credential nothing touches the filesystem; and the only write
effects of any run are that directory creation plus the writes recorded
in the output (the single final PNG write, present exactly when the run
exits 0, and then at the caller's output path). -/
theorem filesystem_effects_frame (k prompt filename : String) (inputImages : List String)
    (resolution model : String) (load : String → Except String (String × Nat × Nat))
    (net : Payload → Except NetError ApiResponse) (fullPath rawJson : String) :
    (mainRun none prompt filename inputImages resolution model load net fullPath rawJson).1 = [] ∧
    (mainRun (some k) prompt filename inputImages resolution model load net fullPath
        rawJson).1.head? = some (Effect.mkdirParents filename) ∧
    (14 < inputImages.length →
      (mainRun (some k) prompt filename inputImages resolution model load net fullPath
          rawJson).1 = [Effect.mkdirParents filename]) ∧
    (mainRun (some k) prompt filename inputImages resolution model load net fullPath
        rawJson).1.filter isWriteEffect =
      Effect.mkdirParents filename ::
        (mainRun (some k) prompt filename inputImages resolution model load net fullPath
            rawJson).2.savedFiles.map Effect.writeFile ∧
    ((mainRun (some k) prompt filename inputImages resolution model load net fullPath
        rawJson).2.exitCode = 0 →
      (mainRun (some k) prompt filename inputImages resolution model load net fullPath
          rawJson).2.savedFiles = [filename]) ∧
    ((mainRun (some k) prompt filename inputImages resolution model load net fullPath
        rawJson).2.exitCode ≠ 0 →
      (mainRun (some k) prompt filename inputImages resolution model load net fullPath
          rawJson).2.savedFiles = []) := by
  refine ⟨rfl, ?_, ?_, ?_, ?_, ?_⟩
  · simp only [mainRun]
    cases hb : (buildContentT load inputImages resolution prompt).result with
    | error e =>
      cases e with
      | tooManyInputImages n => simp
      | imageLoadError p e2 => simp
    | ok r =>
      cases hn : net (buildPayload model r) with
      | error ne => cases ne <;> simp [hn]
      | ok resp => simp [hn]
  · intro hlen
    simp only [mainRun]
    rw [buildContentT_tooMany load inputImages resolution prompt hlen]
  · simp only [mainRun]
    cases hb : (buildContentT load inputImages resolution prompt).result with
    | error e =>
      cases e with
      | tooManyInputImages n =>
        simpa [isWriteEffect] using buildContentT_no_writes load inputImages resolution prompt
      | imageLoadError p e2 =>
        simpa [isWriteEffect] using buildContentT_no_writes load inputImages resolution prompt
    | ok r =>
      cases hn : net (buildPayload model r) with
      | error ne =>
        cases ne <;>
          simpa [hn, isWriteEffect, List.filter_append] using
            buildContentT_no_writes load inputImages resolution prompt
      | ok resp =>
        simp [hn, isWriteEffect, List.filter_append,
          buildContentT_no_writes load inputImages resolution prompt,
          filter_writeFile_map]
  · simp only [mainRun]
    cases hb : (buildContentT load inputImages resolution prompt).result with
    | error e =>
      cases e with
      | tooManyInputImages n => simp
      | imageLoadError p e2 => simp
    | ok r =>
      cases hn : net (buildPayload model r) with
      | error ne => cases ne <;> simp [hn]
      | ok resp =>
        simpa [hn] using (responsePhase_saved resp filename fullPath rawJson).1
  · simp only [mainRun]
    cases hb : (buildContentT load inputImages resolution prompt).result with
    | error e =>
      cases e with
      | tooManyInputImages n => simp
      | imageLoadError p e2 => simp
    | ok r =>
      cases hn : net (buildPayload model r) with
      | error ne => cases ne <;> simp [hn]
      | ok resp =>
        simpa [hn] using (responsePhase_saved resp filename fullPath rawJson).2

/-- C10 witness: two runs — a successful generation with no input images,
whose first effect is the mkdir, and a 15-image run whose whole trace is
the mkdir alone. -/
theorem filesystem_effects_frame_witness :
    (mainRun (some "k") "p" "out.png" [] "1K" "m" (totalLoad (fun _ => "u") (fun _ => 1) (fun _ => 1))
        (fun _ => Except.ok ⟨[⟨Content.str "", [ImageEntry.dict "data:a,b"]⟩]⟩)
        "/abs/out.png" "R").1.head? = some (Effect.mkdirParents "out.png") ∧
    (mainRun (some "k") "p" "out.png"
        ["1", "2", "3", "4", "5", "6", "7", "8", "9", "10", "11", "12", "13", "14", "15"]
        "1K" "m" (totalLoad (fun _ => "u") (fun _ => 1) (fun _ => 1))
        (fun _ => Except.ok ⟨[⟨Content.str "", [ImageEntry.dict "data:a,b"]⟩]⟩)
        "/abs/out.png" "R").1 = [Effect.mkdirParents "out.png"] := by
  refine ⟨?_, ?_⟩
  · exact (filesystem_effects_frame "k" "p" "out.png" [] "1K" "m"
      (totalLoad (fun _ => "u") (fun _ => 1) (fun _ => 1))
      (fun _ => Except.ok ⟨[⟨Content.str "", [ImageEntry.dict "data:a,b"]⟩]⟩)
      "/abs/out.png" "R").2.1
  · exact (filesystem_effects_frame "k" "p" "out.png"
      ["1", "2", "3", "4", "5", "6", "7", "8", "9", "10", "11", "12", "13", "14", "15"]
      "1K" "m" (totalLoad (fun _ => "u") (fun _ => 1) (fun _ => 1))
      (fun _ => Except.ok ⟨[⟨Content.str "", [ImageEntry.dict "data:a,b"]⟩]⟩)
      "/abs/out.png" "R").2.2.1 (by decide)

end GenerateImage
